import Mathlib

/-!
# Verification of the peeps-ember-orbit configuration service and contact model

Shallow embedding of the repository's three source files:
* `app/models/contact.js` — the `fullName` computed property;
* `app/routes/contact.js` (the `orbitConfiguration` service) — mode
  configuration, teardown (`clearActiveConfiguration`), strategy and source
  wiring, and the failure-handling callbacks (`catch` handlers and the
  `pushFail` action).

Stateful code is embedded as explicit state passing; the calls made into the
external coordinator / storage libraries are recorded as an event trace, so
that ordering claims can be stated on the trace.  Console logging with extra
arguments (the logged error object, transform object) is recorded by its
message string only.
-/

namespace Peeps

/-- The browser storage implementation selected for a bucket or backup source:
IndexedDB when `supportsIndexedDB` holds, local-storage otherwise. -/
inductive StorageImpl
  | indexedDB
  | localStorage
deriving DecidableEq, Repr

/-- `let BucketClass = supportsIndexedDB ? IndexedDBBucket : LocalStorageBucket`
(service `init`). -/
def initBucketImpl (supports : Bool) : StorageImpl :=
  if supports then StorageImpl.indexedDB else StorageImpl.localStorage

/-- `let BackupClass = supportsIndexedDB ? IndexedDBSource : LocalStorageSource`
(inside `configure`, backup branch). -/
def backupImpl (supports : Bool) : StorageImpl :=
  if supports then StorageImpl.indexedDB else StorageImpl.localStorage

/-! ## Errors, transforms and the failure-handling callbacks -/

/-- The error classes from `@orbit/data` that the code can receive: the code
only ever tests `e instanceof NetworkError`. `clientError` stands for a
`ClientError` (imported but never tested), `otherError` for any other thrown
value. -/
inductive JsError
  | networkError
  | clientError
  | otherError
deriving DecidableEq, Repr

/-- `transform.options` — a JS object that may be absent, whose `label` field
may itself be absent. -/
structure TransformOptions where
  label : Option String
deriving DecidableEq, Repr

/-- A transform as received by the `pushFail` action: its `id` and its
(optional) `options`. -/
structure Transform where
  id : String
  options : Option TransformOptions
deriving DecidableEq, Repr

/-- `let label = transform.options && transform.options.label` followed by the
truthiness test `if (label)`: yields `some l` exactly when `options` is present
and `options.label` is a non-empty string (the only truthy possibility for a
string field). -/
def jsLabel (t : Transform) : Option String :=
  match t.options with
  | none => none
  | some o =>
    match o.label with
    | none => none
    | some l => if l == "" then none else some l

/-- Observable effects performed by the failure-handling callbacks. -/
inductive Effect
  | consoleLog (msg : String)
  | scheduleRetry (queueSource : String) (delayMs : Nat)
  | alertMsg (msg : String)
  | rollback (transformId : String) (relativePosition : Int)
  | skipQueue (sourceName : String)
  | rethrow
deriving DecidableEq, Repr

/-- `store.rollback(transformId, -1)` truncates the store's transform log to
the position immediately before `transformId`.  Modelled from the spec: the
rollback mechanism itself lives in the external library; only the call with
relative position `-1` is made by this code. -/
def rollbackLog (log : List String) (tid : String) : List String :=
  log.takeWhile (fun x => !(x == tid))

/-- The `action(transform, e)` callback of the `pushFail` `RequestStrategy`
installed in optimistic-server mode (lines 180-206 of the service).  Returns
the emitted effects together with the store's transform log after the call. -/
def pushFailAction (storeLog : List String) (t : Transform) (e : JsError) :
    List Effect × List String :=
  if e == JsError.networkError then
    ([Effect.consoleLog "NetworkError - will try again soon",
      Effect.scheduleRetry "remote" 5000], storeLog)
  else
    let alertE :=
      match jsLabel t with
      | some label => Effect.alertMsg ("Unable to complete \"" ++ label ++ "\"")
      | none => Effect.alertMsg "Unable to complete operation"
    if storeLog.contains t.id then
      ([alertE,
        Effect.consoleLog ("Rolling back - transform: " ++ t.id),
        Effect.rollback t.id (-1),
        Effect.skipQueue "remote"],
       rollbackLog storeLog t.id)
    else
      ([alertE, Effect.skipQueue "remote"], storeLog)

/-- The `catch(e)` handler of the `beforeQuery`/`pull` `RequestStrategy`
(lines 134-140): log, skip this.source ('store') and this.target ('remote')
request queues, rethrow. -/
def pullCatch (_e : JsError) : List Effect :=
  [Effect.consoleLog "error performing remote.pull",
   Effect.skipQueue "store",
   Effect.skipQueue "remote",
   Effect.rethrow]

/-- The `catch(e)` handler of the pessimistic `beforeUpdate`/`push`
`RequestStrategy` (lines 156-162): log, skip both request queues, rethrow. -/
def pushCatchPessimistic (_e : JsError) : List Effect :=
  [Effect.consoleLog "error performing remote.push",
   Effect.skipQueue "store",
   Effect.skipQueue "remote",
   Effect.rethrow]

/-- Does an effect list schedule any delayed retry? -/
def hasRetry (effs : List Effect) : Bool :=
  effs.any (fun e =>
    match e with
    | Effect.scheduleRetry _ _ => true
    | _ => false)

/-- Does an effect list show any alert? -/
def hasAlert (effs : List Effect) : Bool :=
  effs.any (fun e =>
    match e with
    | Effect.alertMsg _ => true
    | _ => false)

/-- Does an effect list perform any rollback? -/
def hasRollback (effs : List Effect) : Bool :=
  effs.any (fun e =>
    match e with
    | Effect.rollback _ _ => true
    | _ => false)

/-! ## Strategies and the coordinator -/

/-- Which of the two failure-handling callbacks a `RequestStrategy` carries. -/
inductive Handler
  | queueSkipCatch
  | pushFailHandler
deriving DecidableEq, Repr

/-- The fields of a `RequestStrategy` as instantiated by `configure`
(`onEvent` holds the JS `on` field; `on` is a Lean keyword). -/
structure RequestStrategyCfg where
  source : String
  onEvent : String
  target : Option String
  action : Option String
  blocking : Bool
  catchH : Option Handler
  actionH : Option Handler
deriving DecidableEq, Repr

/-- A strategy added to the coordinator. -/
inductive Strategy
  | eventLogging
  | logTruncation
  | sync (source target : String) (blocking : Bool)
  | request (cfg : RequestStrategyCfg)
deriving DecidableEq, Repr

/-- `new RequestStrategy({ source: 'store', on: 'beforeQuery', target: 'remote',
action: 'pull', blocking: pessimisticMode, catch ... })`. -/
def pullStrategy (blocking : Bool) : Strategy :=
  Strategy.request
    ⟨"store", "beforeQuery", some "remote", some "pull", blocking,
      some Handler.queueSkipCatch, none⟩

/-- The pessimistic `beforeUpdate`/`push` strategy (blocking, with catch). -/
def pushPessimisticStrategy : Strategy :=
  Strategy.request
    ⟨"store", "beforeUpdate", some "remote", some "push", true,
      some Handler.queueSkipCatch, none⟩

/-- The optimistic `beforeUpdate`/`push` strategy (non-blocking, no catch). -/
def pushOptimisticStrategy : Strategy :=
  Strategy.request
    ⟨"store", "beforeUpdate", some "remote", some "push", false, none, none⟩

/-- The `pushFail` strategy on the remote source (optimistic mode only). -/
def pushFailStrategy : Strategy :=
  Strategy.request
    ⟨"remote", "pushFail", none, none, true, none, some Handler.pushFailHandler⟩

/-- Calls made into the coordinator / sources / browser, recorded in order. -/
inductive Event
  | consoleLog (msg : String)
  | deactivate
  | resetBackup
  | removeStrategy (s : Strategy)
  | clearTransformLog (src : String)
  | clearRequestQueue (src : String)
  | clearSyncQueue (src : String)
  | resetCache
  | removeSource (name : String)
  | setOrbitFetch
  | localStorageSet (key value : String)
  | addStrategy (s : Strategy)
  | addSource (name : String)
  | addBackupSource (impl : StorageImpl)
  | activate
  | backupPullRecords
  | storeSyncTransform
deriving DecidableEq, Repr

/-- Coordinator state visible to this code: activation flag, strategies and
source names. -/
structure Coordinator where
  activated : Bool
  strategies : List Strategy
  sources : List String
deriving DecidableEq, Repr

/-- The configuration service's state: its `mode` property (initially null),
the coordinator, the browser's localStorage (as a key/value list) and whether
the browser supports IndexedDB. -/
structure ServiceState where
  mode : Option String
  coordinator : Coordinator
  localStorage : List (String × String)
  supportsIndexedDB : Bool
deriving DecidableEq, Repr

/-- `window.localStorage.setItem`. -/
def lsSet (ls : List (String × String)) (k v : String) : List (String × String) :=
  (k, v) :: ls.filter (fun p => !(p.1 == k))

/-- `window.localStorage.getItem` (`none` for JS `null`). -/
def lsGet (ls : List (String × String)) (k : String) : Option String :=
  (ls.find? (fun p => p.1 == k)).map (fun p => p.2)

/-- Generic concatenation of mapped lists (the events of a `forEach` loop). -/
def concatMap (f : α → List β) : List α → List β
  | [] => []
  | a :: as => f a ++ concatMap f as

/-- Events of the per-source body of `clearActiveConfiguration`'s `forEach`:
clear logs and queues; keep the store but reset its cache, remove any other
source. -/
def clearSourceEvents (name : String) : List Event :=
  [Event.clearTransformLog name, Event.clearRequestQueue name,
   Event.clearSyncQueue name]
    ++ (if name == "store" then [Event.resetCache] else [Event.removeSource name])

/-- The event trace of `clearActiveConfiguration`: when the coordinator is
activated, deactivate it, reset the backup source if present, remove every
strategy, then clear/reset/remove every source; otherwise do nothing. -/
def clearEvents (c : Coordinator) : List Event :=
  if c.activated then
    [Event.deactivate,
     Event.consoleLog "[orbit-configuration] resetting browser storage"]
      ++ (if c.sources.contains "backup" then [Event.resetBackup] else [])
      ++ [Event.consoleLog "[orbit-configuration] resetting sources and strategies"]
      ++ c.strategies.map Event.removeStrategy
      ++ concatMap clearSourceEvents c.sources
  else []

/-- `clearActiveConfiguration`: its event trace together with the coordinator
state it leaves behind (all strategies removed; only the store kept). -/
def clearActiveConfiguration (c : Coordinator) : Coordinator × List Event :=
  if c.activated then
    (⟨false, [], c.sources.filter (fun n => n == "store")⟩, clearEvents c)
  else (c, [])

/-- The event trace of the configuration-building part of `configure(mode)`
(everything inside the `.then` after `clearActiveConfiguration`). -/
def buildEvents (supports : Bool) (mode : String) : List Event :=
  let pessimisticMode := mode == "pessimistic-server"
  [Event.localStorageSet "peeps-mode" mode,
   Event.addStrategy Strategy.eventLogging,
   Event.addStrategy Strategy.logTruncation]
    ++ (if mode == "pessimistic-server" || mode == "optimistic-server" then
          [Event.setOrbitFetch,
           Event.addSource "remote",
           Event.addStrategy (Strategy.sync "remote" "store" pessimisticMode),
           Event.addStrategy (pullStrategy pessimisticMode)]
            ++ (if pessimisticMode then
                  [Event.addStrategy pushPessimisticStrategy]
                else
                  [Event.addStrategy pushOptimisticStrategy,
                   Event.addStrategy pushFailStrategy])
        else [])
    ++ (if mode == "offline-only" || mode == "optimistic-server" then
          [Event.addBackupSource (backupImpl supports),
           Event.addStrategy (Strategy.sync "store" "backup" true),
           Event.activate,
           Event.backupPullRecords,
           Event.storeSyncTransform,
           Event.clearTransformLog "backup",
           Event.clearTransformLog "store",
           Event.activate]
        else [Event.activate])

/-- Interpretation of build events on the coordinator (teardown events do not
occur in `buildEvents`, so only additions and activation act). -/
def applyEvent (c : Coordinator) : Event → Coordinator
  | Event.addStrategy st => ⟨c.activated, c.strategies ++ [st], c.sources⟩
  | Event.addSource n => ⟨c.activated, c.strategies, c.sources ++ [n]⟩
  | Event.addBackupSource _ => ⟨c.activated, c.strategies, c.sources ++ ["backup"]⟩
  | Event.activate => ⟨true, c.strategies, c.sources⟩
  | _ => c

/-- Fold a trace of build events over the coordinator. -/
def runEvents (c : Coordinator) (es : List Event) : Coordinator :=
  es.foldl applyEvent c

/-- Result of a `configure` call: the new service state, the trace of library
calls it made, and whether it returned a promise (`false` on the early
same-mode return, which returns `undefined`). -/
structure ConfigureResult where
  state : ServiceState
  trace : List Event
  returnedPromise : Bool
deriving DecidableEq, Repr

/-- `configure(mode)` (lines 83-242 of the service). -/
def configure (s : ServiceState) (mode : String) : ConfigureResult :=
  if s.mode == some mode then ⟨s, [], false⟩
  else
    let cleared := clearActiveConfiguration s.coordinator
    let evts := buildEvents s.supportsIndexedDB mode
    ⟨⟨some mode, runEvents cleared.1 evts,
      lsSet s.localStorage "peeps-mode" mode, s.supportsIndexedDB⟩,
     Event.consoleLog ("[orbit-configuration] mode " ++ mode) :: cleared.2 ++ evts,
     true⟩

/-- The service's `initialize()` method (renamed: the JS name is a Lean-side
reserved word): configure the stored mode, defaulting to offline-only. -/
def initializeService (s : ServiceState) : ConfigureResult :=
  configure s ((lsGet s.localStorage "peeps-mode").getD "offline-only")

/-- An entry of `availableModes`. -/
structure ModeInfo where
  id : String
  description : String
deriving DecidableEq, Repr

/-- The `availableModes` property of the service. -/
def availableModes : List ModeInfo :=
  [⟨"memory-only", "store"⟩,
   ⟨"offline-only", "store + backup"⟩,
   ⟨"pessimistic-server", "store + remote"⟩,
   ⟨"optimistic-server", "store + remote + backup"⟩]

/-- Modelled from the spec: the source list advertised by each description
string of `availableModes` ("store"; "store + backup"; "store + remote";
"store + remote + backup"), in the listed order. -/
def advertisedSources : String → List String
  | "store" => ["store"]
  | "store + backup" => ["store", "backup"]
  | "store + remote" => ["store", "remote"]
  | "store + remote + backup" => ["store", "remote", "backup"]
  | _ => []

/-- Modelled from the spec: a fresh session's coordinator starts inactive with
no strategies, managing only the in-memory store source (the store appears in
every advertised mode description and is the one source `configure` never
adds). -/
def initialCoordinator : Coordinator := ⟨false, [], ["store"]⟩

/-- A fresh browser session: service `mode` is null, the coordinator is the
initial one, and only `localStorage` persists from earlier sessions. -/
def newSession (ls : List (String × String)) (supports : Bool) : ServiceState :=
  ⟨none, initialCoordinator, ls, supports⟩

/-! ## Trace predicates -/

/-- Strategy- or source-adding events. -/
def isAdd : Event → Bool
  | Event.addStrategy _ => true
  | Event.addSource _ => true
  | Event.addBackupSource _ => true
  | _ => false

/-- Coordinator activation. -/
def isActivate : Event → Bool
  | Event.activate => true
  | _ => false

/-- `localStorage.setItem` events. -/
def isLSSet : Event → Bool
  | Event.localStorageSet _ _ => true
  | _ => false

/-- Console logging. -/
def isConsoleLog : Event → Bool
  | Event.consoleLog _ => true
  | _ => false

/-- Teardown events that occur only while clearing the previous
configuration (transform-log clearing is excluded: the backup bootstrap also
clears transform logs after activation). -/
def isTeardownStrict : Event → Bool
  | Event.deactivate => true
  | Event.resetBackup => true
  | Event.removeStrategy _ => true
  | Event.clearRequestQueue _ => true
  | Event.clearSyncQueue _ => true
  | Event.resetCache => true
  | Event.removeSource _ => true
  | _ => false

/-- `afterEach q p tr` holds when no `p`-event ever follows a `q`-event in
`tr`; for disjoint `p` and `q` this says every `p`-event precedes every
`q`-event. -/
def afterEach (q p : Event → Bool) : List Event → Bool
  | [] => true
  | e :: r => ((!q e) || r.all (fun x => !p x)) && afterEach q p r

/-- Events that may occur while clearing the previous configuration
(console logging included). -/
def isClearOp : Event → Bool
  | Event.consoleLog _ => true
  | Event.deactivate => true
  | Event.resetBackup => true
  | Event.removeStrategy _ => true
  | Event.clearTransformLog _ => true
  | Event.clearRequestQueue _ => true
  | Event.clearSyncQueue _ => true
  | Event.resetCache => true
  | Event.removeSource _ => true
  | _ => false

/-- Configuration-building steps: additions and activation. -/
def isBuildStep (e : Event) : Bool :=
  isAdd e || isActivate e

/-- The failure handlers a strategy-adding event installs. -/
def handlersOf : Event → List Handler
  | Event.addStrategy (Strategy.request cfg) => cfg.catchH.toList ++ cfg.actionH.toList
  | _ => []

/-! ## The contact model's `fullName` computed property -/

/-- JS truthiness of an optional string attribute: truthy exactly when present
and non-empty. -/
def jsTruthy : Option String → Bool
  | some s => !(s == "")
  | none => false

/-- The string value of an attribute as used in concatenation (only reached on
truthy values in the code below). -/
def jsVal : Option String → String
  | some s => s
  | none => ""

/-- The `fullName` computed property of `app/models/contact.js`. -/
def fullName (firstName lastName : Option String) : String :=
  if jsTruthy firstName && jsTruthy lastName then
    jsVal firstName ++ " " ++ jsVal lastName
  else if jsTruthy firstName then
    jsVal firstName
  else if jsTruthy lastName then
    jsVal lastName
  else
    "(No name)"

end Peeps

namespace Peeps

/-! ## Helper lemmas about traces -/

theorem all_mono {p q : Event → Bool} (h : ∀ e, p e = true → q e = true)
    {l : List Event} (hl : l.all p = true) : l.all q = true := by
  simp only [List.all_eq_true] at *
  exact fun e he => h e (hl e he)

theorem all_concatMap {α : Type} {f : α → List Event} {p : Event → Bool}
    (h : ∀ a, (f a).all p = true) (l : List α) :
    (concatMap f l).all p = true := by
  induction l with
  | nil => rfl
  | cons a as ih => simp [concatMap, List.all_append, h a, ih]

theorem mem_concatMap_of {α : Type} {f : α → List Event} {x : Event} {a : α}
    {l : List α} (ha : a ∈ l) (hx : x ∈ f a) : x ∈ concatMap f l := by
  induction l with
  | nil => cases ha
  | cons b bs ih =>
    rcases List.mem_cons.mp ha with rfl | hmem
    · exact List.mem_append_left _ hx
    · exact List.mem_append_right _ (ih hmem)

theorem clearSourceEvents_all_clearOp (n : String) :
    (clearSourceEvents n).all isClearOp = true := by
  by_cases h : (n == "store") = true <;> simp [clearSourceEvents, h, isClearOp]

theorem clearEvents_all_clearOp (c : Coordinator) :
    (clearEvents c).all isClearOp = true := by
  by_cases ha : c.activated = true
  · by_cases hb : c.sources.contains "backup" = true <;>
      simp [clearEvents, ha, hb, List.all_append, List.all_map, isClearOp,
        Function.comp, all_concatMap clearSourceEvents_all_clearOp]
  · simp [clearEvents, ha]

theorem not_mem_clearEvents {x : Event} (hx : isClearOp x = false)
    (c : Coordinator) : x ∉ clearEvents c := by
  intro hmem
  have h := List.all_eq_true.mp (clearEvents_all_clearOp c) x hmem
  rw [hx] at h
  cases h

theorem clearEvents_no_add (c : Coordinator) :
    (clearEvents c).all (fun e => !(isAdd e)) = true := by
  refine all_mono (fun e he => ?_) (clearEvents_all_clearOp c)
  cases e <;> simp_all [isClearOp, isAdd]

theorem clearEvents_no_buildStep (c : Coordinator) :
    (clearEvents c).all (fun e => !(isBuildStep e)) = true := by
  refine all_mono (fun e he => ?_) (clearEvents_all_clearOp c)
  cases e <;> simp_all [isClearOp, isBuildStep, isAdd, isActivate]

theorem afterEach_append_of {q p : Event → Bool} {A B : List Event}
    (hA : A.all (fun e => !(q e)) = true) (hB : afterEach q p B = true) :
    afterEach q p (A ++ B) = true := by
  induction A with
  | nil => simpa using hB
  | cons a as ih =>
    simp only [List.all_cons, Bool.and_eq_true] at hA
    simp [afterEach, hA.1, ih hA.2]

theorem afterEach_of_no_p {q p : Event → Bool} {B : List Event}
    (h : B.all (fun e => !(p e)) = true) : afterEach q p B = true := by
  induction B with
  | nil => rfl
  | cons b bs ih =>
    simp only [List.all_cons, Bool.and_eq_true] at h
    simp [afterEach, ih h.2, h.2]

theorem afterEach_cons_of {q p : Event → Bool} {e : Event} {B : List Event}
    (hq : q e = false) (hB : afterEach q p B = true) :
    afterEach q p (e :: B) = true := by
  simp [afterEach, hq, hB]

/-! ## Helper lemmas about `configure` -/

theorem clearActiveConfiguration_trace (c : Coordinator) :
    (clearActiveConfiguration c).2 = clearEvents c := by
  by_cases h : c.activated = true <;>
    simp [clearActiveConfiguration, clearEvents, h]

theorem configure_guard_false {s : ServiceState} {m : String}
    (h : s.mode ≠ some m) : (s.mode == some m) = false := by
  simpa using h

theorem configure_trace {s : ServiceState} {m : String} (h : s.mode ≠ some m) :
    (configure s m).trace
      = Event.consoleLog ("[orbit-configuration] mode " ++ m)
        :: (clearEvents s.coordinator ++ buildEvents s.supportsIndexedDB m) := by
  simp [configure, configure_guard_false h, clearActiveConfiguration_trace]

theorem configure_state {s : ServiceState} {m : String} (h : s.mode ≠ some m) :
    (configure s m).state
      = ⟨some m,
          runEvents (clearActiveConfiguration s.coordinator).1
            (buildEvents s.supportsIndexedDB m),
          lsSet s.localStorage "peeps-mode" m, s.supportsIndexedDB⟩ := by
  simp [configure, configure_guard_false h]

theorem buildEvents_no_teardown (b : Bool) (m : String) :
    (buildEvents b m).all (fun e => !(isTeardownStrict e)) = true := by
  by_cases hp : m = "pessimistic-server" <;>
    by_cases ho : m = "optimistic-server" <;>
      by_cases hoff : m = "offline-only" <;>
        simp [buildEvents, hp, ho, hoff, isTeardownStrict]

theorem buildEvents_afterEach_activate_add (b : Bool) (m : String) :
    afterEach isActivate isAdd (buildEvents b m) = true := by
  by_cases hp : m = "pessimistic-server" <;>
    by_cases ho : m = "optimistic-server" <;>
      by_cases hoff : m = "offline-only" <;>
        simp [buildEvents, hp, ho, hoff, afterEach, isActivate, isAdd]

theorem buildEvents_afterEach_buildStep_lsSet (b : Bool) (m : String) :
    afterEach isBuildStep isLSSet (buildEvents b m) = true := by
  by_cases hp : m = "pessimistic-server" <;>
    by_cases ho : m = "optimistic-server" <;>
      by_cases hoff : m = "offline-only" <;>
        simp [buildEvents, hp, ho, hoff, afterEach, isBuildStep, isAdd,
          isActivate, isLSSet]

theorem clearEvents_no_activate (c : Coordinator) :
    (clearEvents c).all (fun e => !(isActivate e)) = true := by
  refine all_mono (fun e he => ?_) (clearEvents_all_clearOp c)
  cases e <;> simp_all [isClearOp, isActivate]

theorem clearEvents_count_activate (c : Coordinator) :
    (clearEvents c).count Event.activate = 0 :=
  List.count_eq_zero.mpr (not_mem_clearEvents (x := Event.activate) rfl c)

theorem clearEvents_count_backupPull (c : Coordinator) :
    (clearEvents c).count Event.backupPullRecords = 0 :=
  List.count_eq_zero.mpr
    (not_mem_clearEvents (x := Event.backupPullRecords) rfl c)

theorem addSource_remote_mem_build (b : Bool) (m : String) :
    (Event.addSource "remote" ∈ buildEvents b m)
      ↔ (m = "pessimistic-server" ∨ m = "optimistic-server") := by
  by_cases hp : m = "pessimistic-server" <;>
    by_cases ho : m = "optimistic-server" <;>
      by_cases hoff : m = "offline-only" <;>
        simp [buildEvents, hp, ho, hoff, pullStrategy, pushPessimisticStrategy,
          pushOptimisticStrategy, pushFailStrategy]

theorem addBackupSource_mem_build (b : Bool) (m : String) :
    (Event.addBackupSource (backupImpl b) ∈ buildEvents b m)
      ↔ (m = "offline-only" ∨ m = "optimistic-server") := by
  by_cases hp : m = "pessimistic-server" <;>
    by_cases ho : m = "optimistic-server" <;>
      by_cases hoff : m = "offline-only" <;>
        simp [buildEvents, hp, ho, hoff, pullStrategy, pushPessimisticStrategy,
          pushOptimisticStrategy, pushFailStrategy]

/-! ## Claims -/

/-- C10: for every contact, `fullName` equals `firstName ++ " " ++ lastName`
when both names are truthy (present and non-empty), the sole truthy name when
only one of them is, and `"(No name)"` when both are empty or absent. -/
theorem fullName_cases (firstName lastName : Option String) :
    (jsTruthy firstName = true → jsTruthy lastName = true →
      fullName firstName lastName = jsVal firstName ++ " " ++ jsVal lastName)
    ∧ (jsTruthy firstName = true → jsTruthy lastName = false →
      fullName firstName lastName = jsVal firstName)
    ∧ (jsTruthy firstName = false → jsTruthy lastName = true →
      fullName firstName lastName = jsVal lastName)
    ∧ (jsTruthy firstName = false → jsTruthy lastName = false →
      fullName firstName lastName = "(No name)") := by
  refine ⟨?_, ?_, ?_, ?_⟩ <;> intro h1 h2 <;> simp [fullName, h1, h2]

/-- Witness for C10: the four branches at concrete names. -/
theorem fullName_cases_witness :
    fullName (some "Grace") (some "Hopper") = "Grace Hopper"
    ∧ fullName (some "Grace") none = "Grace"
    ∧ fullName none (some "Hopper") = "Hopper"
    ∧ fullName (some "") none = "(No name)" :=
  ⟨(fullName_cases (some "Grace") (some "Hopper")).1 (by decide) (by decide),
   (fullName_cases (some "Grace") none).2.1 (by decide) (by decide),
   (fullName_cases none (some "Hopper")).2.2.1 (by decide) (by decide),
   (fullName_cases (some "") none).2.2.2 (by decide) (by decide)⟩

/-- C1: when a push fails with an error that is not a `NetworkError`, the
`pushFail` action shows an alert (worded with the transform's label when a
truthy one is provided, generic otherwise), skips the remote source's request
queue, and — when the transform's id is in the store's transform log — rolls
the store back to the position immediately before that transform. -/
theorem pushFail_nonNetwork_alerts_and_rollback
    (storeLog : List String) (t : Transform) (e : JsError)
    (h : e ≠ JsError.networkError) :
    (jsLabel t = none →
      Effect.alertMsg "Unable to complete operation"
        ∈ (pushFailAction storeLog t e).1)
    ∧ (∀ label, jsLabel t = some label →
      Effect.alertMsg ("Unable to complete \"" ++ label ++ "\"")
        ∈ (pushFailAction storeLog t e).1)
    ∧ Effect.skipQueue "remote" ∈ (pushFailAction storeLog t e).1
    ∧ (t.id ∈ storeLog →
      Effect.rollback t.id (-1) ∈ (pushFailAction storeLog t e).1
      ∧ (pushFailAction storeLog t e).2 = rollbackLog storeLog t.id) := by
  have hb : (e == JsError.networkError) = false := by
    cases e <;> simp_all
  unfold pushFailAction
  rw [hb]
  by_cases hc : storeLog.contains t.id = true
  · cases hj : jsLabel t <;>
      simp_all [List.elem_iff]
  · cases hj : jsLabel t <;>
      simp_all [List.elem_iff]

/-- Witness for C1: a labelled transform whose id is in the store log, failing
with a `ClientError`. -/
theorem pushFail_nonNetwork_alerts_and_rollback_witness :
    Effect.alertMsg "Unable to complete \"Add contact\""
      ∈ (pushFailAction ["t0", "t1"] ⟨"t1", some ⟨some "Add contact"⟩⟩
          JsError.clientError).1
    ∧ Effect.skipQueue "remote"
      ∈ (pushFailAction ["t0", "t1"] ⟨"t1", some ⟨some "Add contact"⟩⟩
          JsError.clientError).1
    ∧ Effect.rollback "t1" (-1)
      ∈ (pushFailAction ["t0", "t1"] ⟨"t1", some ⟨some "Add contact"⟩⟩
          JsError.clientError).1
    ∧ (pushFailAction ["t0", "t1"] ⟨"t1", some ⟨some "Add contact"⟩⟩
        JsError.clientError).2 = ["t0"] :=
  have h := pushFail_nonNetwork_alerts_and_rollback ["t0", "t1"]
    ⟨"t1", some ⟨some "Add contact"⟩⟩ JsError.clientError (by decide)
  ⟨h.2.1 "Add contact" (by decide), h.2.2.1,
   (h.2.2.2 (by decide)).1, (h.2.2.2 (by decide)).2⟩

/-- C2: when a push fails with a `NetworkError`, the `pushFail` action logs
and schedules a retry of the remote source's request queue after 5000 ms;
no alert is shown, no rollback is performed, and the store log is unchanged. -/
theorem pushFail_network_schedules_retry (storeLog : List String) (t : Transform) :
    pushFailAction storeLog t JsError.networkError
      = ([Effect.consoleLog "NetworkError - will try again soon",
          Effect.scheduleRetry "remote" 5000], storeLog)
    ∧ hasAlert (pushFailAction storeLog t JsError.networkError).1 = false
    ∧ hasRollback (pushFailAction storeLog t JsError.networkError).1 = false :=
  ⟨rfl, rfl, rfl⟩

/-- C3 counterexample: in pessimistic-server mode `configure` installs the
push strategy whose catch handler, on a `NetworkError`, neither schedules a
delayed retry nor shows an alert nor rolls back — it skips both request queues
and rethrows, a third policy not covered by the claim's two branches. -/
theorem errorPolicy_two_branches_refuted :
    Event.addStrategy pushPessimisticStrategy
      ∈ (configure (newSession [] false) "pessimistic-server").trace
    ∧ hasRetry (pushCatchPessimistic JsError.networkError) = false
    ∧ hasAlert (pushCatchPessimistic JsError.networkError) = false
    ∧ hasRollback (pushCatchPessimistic JsError.networkError) = false
    ∧ Effect.rethrow ∈ pushCatchPessimistic JsError.networkError
    ∧ Effect.skipQueue "store" ∈ pushCatchPessimistic JsError.networkError
    ∧ Effect.skipQueue "remote" ∈ pushCatchPessimistic JsError.networkError := by
  refine ⟨by decide, rfl, rfl, rfl, by decide, by decide, by decide⟩

/-- C3 (amended): the failure policies selected by this codebase are exactly
three. The `pushFail` action of optimistic-server mode has the claim's two
branches (delayed retry on `NetworkError`; alert, conditional rollback and
queue skip otherwise), while the catch handlers of the pull strategy (both
server modes) and of the pessimistic push strategy log, skip the store's and
the remote's request queues and rethrow for every error, `NetworkError`
included; no strategy with any other failure handler is ever added. -/
theorem errorPolicy_three_handlers :
    (∀ e, pullCatch e
      = [Effect.consoleLog "error performing remote.pull",
         Effect.skipQueue "store", Effect.skipQueue "remote", Effect.rethrow])
    ∧ (∀ e, pushCatchPessimistic e
      = [Effect.consoleLog "error performing remote.push",
         Effect.skipQueue "store", Effect.skipQueue "remote", Effect.rethrow])
    ∧ (∀ e, hasRetry (pullCatch e) = false ∧ hasAlert (pullCatch e) = false
        ∧ hasRetry (pushCatchPessimistic e) = false
        ∧ hasAlert (pushCatchPessimistic e) = false)
    ∧ (∀ storeLog t, (pushFailAction storeLog t JsError.networkError).1
      = [Effect.consoleLog "NetworkError - will try again soon",
         Effect.scheduleRetry "remote" 5000])
    ∧ (∀ storeLog t e, e ≠ JsError.networkError →
        hasAlert (pushFailAction storeLog t e).1 = true
        ∧ Effect.skipQueue "remote" ∈ (pushFailAction storeLog t e).1
        ∧ hasRetry (pushFailAction storeLog t e).1 = false)
    ∧ (∀ supports mode, ((buildEvents supports mode).all (fun ev =>
        (handlersOf ev).all (fun h =>
          h == Handler.queueSkipCatch || h == Handler.pushFailHandler))) = true) := by
  refine ⟨fun e => rfl, fun e => rfl, fun e => ⟨rfl, rfl, rfl, rfl⟩,
    fun storeLog t => rfl, ?_, ?_⟩
  · intro storeLog t e he
    have hb : (e == JsError.networkError) = false := by
      cases e <;> simp_all
    unfold pushFailAction
    rw [hb]
    by_cases hc : storeLog.contains t.id = true <;>
      cases hj : jsLabel t <;>
        simp_all [hasAlert, hasRetry]
  · intro supports mode
    by_cases hp : (mode == "pessimistic-server") = true <;>
      by_cases ho : (mode == "optimistic-server") = true <;>
        by_cases hoff : (mode == "offline-only") = true <;>
          simp [buildEvents, hp, ho, hoff, handlersOf, pullStrategy,
            pushPessimisticStrategy, pushOptimisticStrategy, pushFailStrategy]

/-- Witness for C3's amended theorem: the non-network branch at a concrete
input. -/
theorem errorPolicy_three_handlers_witness :
    hasAlert (pushFailAction [] ⟨"t9", none⟩ JsError.otherError).1 = true
    ∧ Effect.skipQueue "remote"
      ∈ (pushFailAction [] ⟨"t9", none⟩ JsError.otherError).1
    ∧ hasRetry (pushFailAction [] ⟨"t9", none⟩ JsError.otherError).1 = false :=
  errorPolicy_three_handlers.2.2.2.2.1 [] ⟨"t9", none⟩ JsError.otherError (by decide)

/-- C4: the service advertises exactly four modes; for every mode-changing
`configure(mode)` call, a remote source is added exactly when `mode` is
pessimistic-server or optimistic-server and a backup source exactly when it
is offline-only or optimistic-server; and from a fresh session the assembled
sources match each advertised description. -/
theorem configure_modes_and_sources (s : ServiceState) (m : String) (b : Bool)
    (h : s.mode ≠ some m) :
    availableModes
      = [⟨"memory-only", "store"⟩, ⟨"offline-only", "store + backup"⟩,
         ⟨"pessimistic-server", "store + remote"⟩,
         ⟨"optimistic-server", "store + remote + backup"⟩]
    ∧ (Event.addSource "remote" ∈ (configure s m).trace
        ↔ (m = "pessimistic-server" ∨ m = "optimistic-server"))
    ∧ (Event.addBackupSource (backupImpl s.supportsIndexedDB)
          ∈ (configure s m).trace
        ↔ (m = "offline-only" ∨ m = "optimistic-server"))
    ∧ (∀ mi ∈ availableModes,
        (configure (newSession [] b) mi.id).state.coordinator.sources
          = advertisedSources mi.description) := by
  refine ⟨rfl, ?_, ?_, ?_⟩
  · rw [configure_trace h]
    simp [List.mem_cons, List.mem_append,
      not_mem_clearEvents (x := Event.addSource "remote") rfl,
      addSource_remote_mem_build]
  · rw [configure_trace h]
    simp [List.mem_cons, List.mem_append,
      not_mem_clearEvents
        (x := Event.addBackupSource (backupImpl s.supportsIndexedDB)) rfl,
      addBackupSource_mem_build]
  · intro mi hmi
    simp only [availableModes, List.mem_cons, List.not_mem_nil, or_false] at hmi
    rcases hmi with rfl | rfl | rfl | rfl <;> cases b <;> decide

/-- Witness for C4: in a fresh session, configuring optimistic-server adds the
remote source, and the assembled sources of offline-only match its
description. -/
theorem configure_modes_and_sources_witness :
    Event.addSource "remote"
      ∈ (configure (newSession [] false) "optimistic-server").trace
    ∧ (configure (newSession [] false) "offline-only").state.coordinator.sources
      = advertisedSources "store + backup" :=
  ⟨(configure_modes_and_sources (newSession [] false) "optimistic-server" false
      (by decide)).2.1.mpr (Or.inr rfl),
   (configure_modes_and_sources (newSession [] false) "offline-only" false
      (by decide)).2.2.2 ⟨"offline-only", "store + backup"⟩ (by decide)⟩

/-- C7: the settings bucket (service `init`) and the backup source
(`configure`) select IndexedDB exactly when the browser supports it and
local-storage otherwise; no other storage backend exists, and the backup
source added in the two backup modes uses exactly that implementation. -/
theorem storage_backend_selection (b : Bool) :
    initBucketImpl b = backupImpl b
    ∧ (initBucketImpl b = StorageImpl.indexedDB ↔ b = true)
    ∧ (backupImpl b = StorageImpl.localStorage ↔ b = false)
    ∧ (initBucketImpl b = StorageImpl.indexedDB
        ∨ initBucketImpl b = StorageImpl.localStorage)
    ∧ Event.addBackupSource (backupImpl b)
        ∈ (configure (newSession [] b) "offline-only").trace
    ∧ Event.addBackupSource (backupImpl b)
        ∈ (configure (newSession [] b) "optimistic-server").trace := by
  cases b <;>
    exact ⟨rfl, by decide, by decide, by decide, by decide, by decide⟩

/-- C8: calling `configure` with the currently configured mode returns
immediately: unchanged state, no teardown, no additions, no localStorage
write (empty trace), and `undefined` instead of a promise. -/
theorem configure_same_mode_noop (s : ServiceState) (m : String)
    (h : s.mode = some m) : configure s m = ⟨s, [], false⟩ := by
  simp [configure, h]

/-- Witness for C8 at a concrete already-configured state. -/
theorem configure_same_mode_noop_witness :
    configure ⟨some "memory-only", initialCoordinator, [], false⟩ "memory-only"
      = ⟨⟨some "memory-only", initialCoordinator, [], false⟩, [], false⟩ :=
  configure_same_mode_noop ⟨some "memory-only", initialCoordinator, [], false⟩
    "memory-only" rfl

/-- C9: every mode-changing `configure(m)` stores `m` under the localStorage
key "peeps-mode", the store happens before any strategy/source addition or
activation, and `initialize()` in a following session configures exactly the
stored mode (defaulting to offline-only when nothing is stored). -/
theorem mode_persistence_roundtrip (s : ServiceState) (m : String) (b : Bool)
    (h : s.mode ≠ some m) :
    lsGet (configure s m).state.localStorage "peeps-mode" = some m
    ∧ afterEach isBuildStep isLSSet (configure s m).trace = true
    ∧ initializeService (newSession (configure s m).state.localStorage b)
        = configure (newSession (configure s m).state.localStorage b) m
    ∧ initializeService (newSession [] b)
        = configure (newSession [] b) "offline-only" := by
  have hls : lsGet (configure s m).state.localStorage "peeps-mode" = some m := by
    rw [configure_state h]
    simp [lsGet, lsSet]
  refine ⟨hls, ?_, ?_, rfl⟩
  · rw [configure_trace h]
    refine afterEach_cons_of rfl ?_
    exact afterEach_append_of (clearEvents_no_buildStep s.coordinator)
      (buildEvents_afterEach_buildStep_lsSet s.supportsIndexedDB m)
  · simp [initializeService, newSession, hls]

/-- C5: for every mode-changing `configure` call with the coordinator
activated, the first coordinator/storage operation is deactivation; the
backup source, if present, is reset; all strategies are removed and every
source has its logs and queues cleared — the store being kept with its cache
reset and every other source removed — no teardown step ever follows an
addition for the new mode, and the coordinator is activated only after all of
the new mode's strategies and sources have been added. -/
theorem configure_teardown_before_build (s : ServiceState) (m : String)
    (h1 : s.mode ≠ some m) (h2 : s.coordinator.activated = true) :
    ((configure s m).trace.filter (fun e => !(isConsoleLog e))).head?
        = some Event.deactivate
    ∧ ("backup" ∈ s.coordinator.sources →
        Event.resetBackup ∈ (configure s m).trace)
    ∧ afterEach isAdd isTeardownStrict (configure s m).trace = true
    ∧ afterEach isActivate isAdd (configure s m).trace = true
    ∧ (∀ n ∈ s.coordinator.sources,
        Event.clearTransformLog n ∈ (configure s m).trace
        ∧ Event.clearRequestQueue n ∈ (configure s m).trace
        ∧ Event.clearSyncQueue n ∈ (configure s m).trace
        ∧ (n = "store" → Event.resetCache ∈ (configure s m).trace)
        ∧ (n ≠ "store" → Event.removeSource n ∈ (configure s m).trace))
    ∧ (clearActiveConfiguration s.coordinator).1
        = ⟨false, [], s.coordinator.sources.filter (fun n => n == "store")⟩ := by
  have hsub : ∀ x ∈ clearEvents s.coordinator, x ∈ (configure s m).trace := by
    intro x hx
    rw [configure_trace h1]
    exact List.mem_cons_of_mem _ (List.mem_append_left _ hx)
  refine ⟨?_, ?_, ?_, ?_, ?_, ?_⟩
  · rw [configure_trace h1]
    simp [clearEvents, h2, isConsoleLog, List.filter_cons]
  · intro hb
    have hc : s.coordinator.sources.contains "backup" = true :=
      List.elem_iff.mpr hb
    refine hsub _ ?_
    simp only [clearEvents, h2, if_true, hc]
    simp
  · rw [configure_trace h1]
    exact afterEach_cons_of rfl
      (afterEach_append_of (clearEvents_no_add s.coordinator)
        (afterEach_of_no_p (buildEvents_no_teardown s.supportsIndexedDB m)))
  · rw [configure_trace h1]
    exact afterEach_cons_of rfl
      (afterEach_append_of (clearEvents_no_activate s.coordinator)
        (buildEvents_afterEach_activate_add s.supportsIndexedDB m))
  · intro n hn
    have hsrc : ∀ x ∈ clearSourceEvents n, x ∈ (configure s m).trace := by
      intro x hx
      refine hsub _ ?_
      simp only [clearEvents, h2, if_true]
      exact List.mem_append_right _ (mem_concatMap_of hn hx)
    refine ⟨hsrc _ ?_, hsrc _ ?_, hsrc _ ?_, ?_, ?_⟩
    · simp [clearSourceEvents]
    · simp [clearSourceEvents]
    · simp [clearSourceEvents]
    · intro he
      subst he
      refine hsrc _ ?_
      simp [clearSourceEvents]
    · intro he
      have hne : (n == "store") = false := by simpa using he
      refine hsrc _ ?_
      simp [clearSourceEvents, hne]
  · simp [clearActiveConfiguration, h2]

/-- Witness for C5: switching an activated offline-only configuration to
memory-only. -/
theorem configure_teardown_before_build_witness :
    ((configure
        ⟨some "offline-only",
          ⟨true, [Strategy.eventLogging], ["store", "backup"]⟩,
          [("peeps-mode", "offline-only")], false⟩
        "memory-only").trace.filter (fun e => !(isConsoleLog e))).head?
      = some Event.deactivate
    ∧ Event.resetBackup
      ∈ (configure
          ⟨some "offline-only",
            ⟨true, [Strategy.eventLogging], ["store", "backup"]⟩,
            [("peeps-mode", "offline-only")], false⟩
          "memory-only").trace
    ∧ afterEach isActivate isAdd
        (configure
          ⟨some "offline-only",
            ⟨true, [Strategy.eventLogging], ["store", "backup"]⟩,
            [("peeps-mode", "offline-only")], false⟩
          "memory-only").trace = true :=
  have h := configure_teardown_before_build
    ⟨some "offline-only", ⟨true, [Strategy.eventLogging], ["store", "backup"]⟩,
      [("peeps-mode", "offline-only")], false⟩
    "memory-only" (by decide) rfl
  ⟨h.1, h.2.1 (by decide), h.2.2.2.1⟩

/-- C6: in the two backup modes, `configure` activates the coordinator, pulls
all records from the backup source, syncs the transform into the store,
clears the backup source's transform log, clears the store's transform log
and activates a second time (the trace ends with exactly this sequence and
contains exactly two activations and one backup pull); in the other two modes
the coordinator is activated exactly once and no backup pull occurs. -/
theorem configure_backup_bootstrap (s : ServiceState) (m : String)
    (h1 : s.mode ≠ some m) :
    ((m = "offline-only" ∨ m = "optimistic-server") →
      List.IsSuffix
        [Event.activate, Event.backupPullRecords, Event.storeSyncTransform,
         Event.clearTransformLog "backup", Event.clearTransformLog "store",
         Event.activate]
        (configure s m).trace
      ∧ (configure s m).trace.count Event.activate = 2
      ∧ (configure s m).trace.count Event.backupPullRecords = 1)
    ∧ ((m = "memory-only" ∨ m = "pessimistic-server") →
      (configure s m).trace.count Event.activate = 1
      ∧ Event.backupPullRecords ∉ (configure s m).trace) := by
  constructor
  · intro hm
    have hbuildsuf : List.IsSuffix
        [Event.activate, Event.backupPullRecords, Event.storeSyncTransform,
         Event.clearTransformLog "backup", Event.clearTransformLog "store",
         Event.activate]
        (buildEvents s.supportsIndexedDB m) := by
      rcases hm with rfl | rfl <;> cases hb : s.supportsIndexedDB <;> decide
    have htrsuf : List.IsSuffix (buildEvents s.supportsIndexedDB m)
        (configure s m).trace := by
      rw [configure_trace h1]
      exact ⟨Event.consoleLog ("[orbit-configuration] mode " ++ m)
        :: clearEvents s.coordinator, rfl⟩
    refine ⟨hbuildsuf.trans htrsuf, ?_, ?_⟩
    · rw [configure_trace h1, List.count_cons_of_ne (by simp),
        List.count_append, clearEvents_count_activate]
      rcases hm with rfl | rfl <;> cases hb : s.supportsIndexedDB <;> decide
    · rw [configure_trace h1, List.count_cons_of_ne (by simp),
        List.count_append, clearEvents_count_backupPull]
      rcases hm with rfl | rfl <;> cases hb : s.supportsIndexedDB <;> decide
  · intro hm
    constructor
    · rw [configure_trace h1, List.count_cons_of_ne (by simp),
        List.count_append, clearEvents_count_activate]
      rcases hm with rfl | rfl <;> cases hb : s.supportsIndexedDB <;> decide
    · rw [configure_trace h1]
      intro hmem
      rcases List.mem_cons.mp hmem with he | he
      · cases he
      · rcases List.mem_append.mp he with hc | hbuild
        · exact not_mem_clearEvents (x := Event.backupPullRecords) rfl
            s.coordinator hc
        · rcases hm with rfl | rfl <;>
            revert hbuild <;>
              cases hb : s.supportsIndexedDB <;> decide

/-- Witness for C6: both branches at concrete modes from a fresh session. -/
theorem configure_backup_bootstrap_witness :
    (configure (newSession [] false) "offline-only").trace.count
        Event.activate = 2
    ∧ (configure (newSession [] false) "pessimistic-server").trace.count
        Event.activate = 1 :=
  ⟨((configure_backup_bootstrap (newSession [] false) "offline-only"
      (by decide)).1 (Or.inl rfl)).2.1,
   ((configure_backup_bootstrap (newSession [] false) "pessimistic-server"
      (by decide)).2 (Or.inr rfl)).1⟩

/-- Witness for C9: configuring memory-only from a fresh session stores the
mode, and the next session's `initialize()` configures memory-only. -/
theorem mode_persistence_roundtrip_witness :
    lsGet (configure (newSession [] false) "memory-only").state.localStorage
        "peeps-mode" = some "memory-only"
    ∧ initializeService
        (newSession
          (configure (newSession [] false) "memory-only").state.localStorage
          false)
      = configure
          (newSession
            (configure (newSession [] false) "memory-only").state.localStorage
            false)
          "memory-only" :=
  ⟨(mode_persistence_roundtrip (newSession [] false) "memory-only" false
      (by decide)).1,
   (mode_persistence_roundtrip (newSession [] false) "memory-only" false
      (by decide)).2.2.1⟩

end Peeps
